import Mathlib

/-!
Verification of the risk-scoring core of the fake-social-media-account
detection platform (src/risk_engine.py, with demo fixtures from
src/data_generator.py).

Embedding choices:
* Timestamps are modelled at day granularity: `created_date` is an integer
  day number and `calculate_risk_score` receives the current day `now` as an
  explicit parameter, so `account_age_days = now - created_date` embeds
  Python's `(datetime.now() - account['created_date']).days`.
* Python numbers (ints and floats) are embedded as `Nat` where the source
  only ever holds non-negative integers (counts) and as `Rat` where the
  source may hold floats or does float division; all threshold comparisons
  in the source are against integer or decimal literals, which `Rat`
  represents exactly.
* Explanation strings are interpolated f-strings in the source; they are
  embedded as an inductive type with one constructor per distinct template,
  carrying the interpolated value.  Distinct templates map to distinct
  constructors, so equality of explanation lists corresponds to equality of
  the rendered string lists.
-/

/-- The input record, one account (§3 of the spec; the dict fields built by
src/data_generator.py and consumed by calculate_risk_score). -/
structure AccountRecord where
  account_id : String
  account_type : String
  created_date : Int
  followers : Nat
  following : Nat
  posts : Nat
  posts_per_day : Rat
  bio_length : Nat
  has_profile_pic : Bool
  verified : Bool
  avg_likes_per_post : Rat
  messages_sent_per_day : Rat
  repetitive_content : Rat
  suspicious_links : Rat
  network_flags : Nat
deriving DecidableEq, Repr

/-- One explanation entry, one constructor per f-string template appended by
calculate_risk_score, carrying the interpolated value where the template
has one. -/
inductive Explanation where
  | veryNewAccount
  | relativelyNewAccount
  | lessThanSixMonths
  | botFollowPattern
  | lowFollowRate
  | highInfluence
  | extremePostingFrequency (ppd : Rat)
  | highPostingFrequency (ppd : Rat)
  | activePosting (ppd : Rat)
  | veryRepetitiveContent (pct : Rat)
  | moderatelyRepetitiveContent (pct : Rat)
  | someContentRepetition (pct : Rat)
  | massMessaging (m : Rat)
  | highMessagingVolume (m : Rat)
  | manySuspiciousLinks (pct : Rat)
  | moderateSuspiciousLinks (pct : Rat)
  | someExternalLinks (pct : Rat)
  | connectedToFlaggedMany (n : Nat)
  | connectedToFlaggedSome (n : Nat)
  | verifiedAccount
  | hasProfilePicture
  | completeProfileWithBio
  | establishedAccount
deriving DecidableEq, Repr

/-- Which of the seven negative factors (1-7) or the positive-signal block
(8) produces a given explanation. -/
def Explanation.factorTag : Explanation → Nat
  | .veryNewAccount | .relativelyNewAccount | .lessThanSixMonths => 1
  | .botFollowPattern | .lowFollowRate | .highInfluence => 2
  | .extremePostingFrequency _ | .highPostingFrequency _ | .activePosting _ => 3
  | .veryRepetitiveContent _ | .moderatelyRepetitiveContent _
  | .someContentRepetition _ => 4
  | .massMessaging _ | .highMessagingVolume _ => 5
  | .manySuspiciousLinks _ | .moderateSuspiciousLinks _
  | .someExternalLinks _ => 6
  | .connectedToFlaggedMany _ | .connectedToFlaggedSome _ => 7
  | .verifiedAccount | .hasProfilePicture | .completeProfileWithBio
  | .establishedAccount => 8

/-- The output record returned by calculate_risk_score. -/
structure RiskAssessment where
  risk_score : Nat
  risk_level : String
  risk_color : String
  recommendation : String
  explanations : List Explanation
  account_id : String
deriving DecidableEq, Repr

/-- FACTOR 1 (risk_engine.py lines 22-32): account age, max 15 points. -/
def ageFactor (account_age_days : Int) : Nat × Option Explanation :=
  if account_age_days < 30 then (15, some .veryNewAccount)
  else if account_age_days < 90 then (8, some .relativelyNewAccount)
  else if account_age_days < 180 then (3, some .lessThanSixMonths)
  else (0, none)

/-- FACTOR 2 (risk_engine.py lines 34-46): follower/following pattern, max
20 points; guarded by following > 0 so no division happens otherwise. -/
def ratioFactor (followers following : Nat) : Nat × Option Explanation :=
  if following > 0 then
    let ff_ratio : Rat := (followers : Rat) / (following : Rat)
    if following > 2000 ∧ followers < 100 then (20, some .botFollowPattern)
    else if ff_ratio < 1/10 then (12, some .lowFollowRate)
    else if ff_ratio > 10 ∧ followers > 5000 then (0, some .highInfluence)
    else (0, none)
  else (0, none)

/-- FACTOR 3 (risk_engine.py lines 48-57): posting frequency, max 20
points. -/
def frequencyFactor (posts_per_day : Rat) : Nat × Option Explanation :=
  if posts_per_day > 10 then (20, some (.extremePostingFrequency posts_per_day))
  else if posts_per_day > 5 then (12, some (.highPostingFrequency posts_per_day))
  else if posts_per_day > 3 then (5, some (.activePosting posts_per_day))
  else (0, none)

/-- FACTOR 4 (risk_engine.py lines 59-68): content repetition, max 15
points. -/
def repetitionFactor (repetitive_content : Rat) : Nat × Option Explanation :=
  if repetitive_content > 70 then (15, some (.veryRepetitiveContent repetitive_content))
  else if repetitive_content > 50 then (8, some (.moderatelyRepetitiveContent repetitive_content))
  else if repetitive_content > 30 then (3, some (.someContentRepetition repetitive_content))
  else (0, none)

/-- FACTOR 5 (risk_engine.py lines 70-76): messaging behavior, max 15
points. -/
def messagingFactor (messages_sent_per_day : Rat) : Nat × Option Explanation :=
  if messages_sent_per_day > 50 then (15, some (.massMessaging messages_sent_per_day))
  else if messages_sent_per_day > 20 then (8, some (.highMessagingVolume messages_sent_per_day))
  else (0, none)

/-- FACTOR 6 (risk_engine.py lines 78-87): suspicious links, max 10
points. -/
def linksFactor (suspicious_links : Rat) : Nat × Option Explanation :=
  if suspicious_links > 40 then (10, some (.manySuspiciousLinks suspicious_links))
  else if suspicious_links > 20 then (6, some (.moderateSuspiciousLinks suspicious_links))
  else if suspicious_links > 10 then (2, some (.someExternalLinks suspicious_links))
  else (0, none)

/-- FACTOR 7 (risk_engine.py lines 89-95): network connections, max 5
points. -/
def networkFactor (network_flags : Nat) : Nat × Option Explanation :=
  if network_flags > 3 then (5, some (.connectedToFlaggedMany network_flags))
  else if network_flags > 0 then (2, some (.connectedToFlaggedSome network_flags))
  else (0, none)

/-- The running total accumulated by the seven += blocks of
calculate_risk_score before the final clamp (risk_engine.py lines 17-95). -/
def rawScore (now : Int) (account : AccountRecord) : Nat :=
  (ageFactor (now - account.created_date)).1
    + (ratioFactor account.followers account.following).1
    + (frequencyFactor account.posts_per_day).1
    + (repetitionFactor account.repetitive_content).1
    + (messagingFactor account.messages_sent_per_day).1
    + (linksFactor account.suspicious_links).1
    + (networkFactor account.network_flags).1

/-- The explanation list accumulated by the seven factor blocks, in source
append order (risk_engine.py lines 17-95). -/
def negativeExplanations (now : Int) (account : AccountRecord) : List Explanation :=
  [(ageFactor (now - account.created_date)).2,
   (ratioFactor account.followers account.following).2,
   (frequencyFactor account.posts_per_day).2,
   (repetitionFactor account.repetitive_content).2,
   (messagingFactor account.messages_sent_per_day).2,
   (linksFactor account.suspicious_links).2,
   (networkFactor account.network_flags).2].filterMap id

/-- The positive-signal block (risk_engine.py lines 114-123): the four
independently gated appends, in source order. -/
def positiveSignals (account_age_days : Int) (account : AccountRecord) : List Explanation :=
  (if account.verified then [Explanation.verifiedAccount] else [])
    ++ (if account.has_profile_pic then [Explanation.hasProfilePicture] else [])
    ++ (if account.bio_length > 50 then [Explanation.completeProfileWithBio] else [])
    ++ (if account_age_days > 365 then [Explanation.establishedAccount] else [])

/-- calculate_risk_score (risk_engine.py lines 10-132).  `now` is the
current day number read by datetime.now() in the source. -/
def calculate_risk_score (now : Int) (account : AccountRecord) : RiskAssessment :=
  let account_age_days : Int := now - account.created_date
  let risk_score : Nat := min (rawScore now account) 100
  let levelColorRec : String × String × String :=
    if risk_score ≥ 70 then
      ( "HIGH RISK", "🔴",
        "Strong indicators of malicious activity. Recommend immediate review and possible restriction.")
    else if risk_score ≥ 40 then
      ( "MODERATE RISK", "🟡",
        "Unusual patterns detected. May be legitimate but warrants human review.")
    else
      ( "LOW RISK", "🟢",
        "Activity appears normal. Account likely legitimate.")
  { risk_score := risk_score
    risk_level := levelColorRec.1
    risk_color := levelColorRec.2.1
    recommendation := levelColorRec.2.2
    explanations := negativeExplanations now account
      ++ (if risk_score < 40 then positiveSignals account_age_days account else [])
    account_id := account.account_id }

/-- analyze_batch_accounts (risk_engine.py lines 135-148): one assessment
per input row, in input order. -/
def analyze_batch_accounts (now : Int) (accounts : List AccountRecord) : List RiskAssessment :=
  accounts.map (calculate_risk_score now)

/-- The summary dict returned by get_risk_distribution. -/
structure RiskDistribution where
  high_risk : Nat
  moderate_risk : Nat
  low_risk : Nat
  total : Nat
  avg_score : Rat
deriving DecidableEq, Repr

/-- get_risk_distribution (risk_engine.py lines 151-163): value_counts per
band (0 when absent) and the pandas mean of the risk_score column. -/
def get_risk_distribution (results : List RiskAssessment) : RiskDistribution :=
  { high_risk := results.countP (fun r => r.risk_level = "HIGH RISK")
    moderate_risk := results.countP (fun r => r.risk_level = "MODERATE RISK")
    low_risk := results.countP (fun r => r.risk_level = "LOW RISK")
    total := results.length
    avg_score := (results.map (fun r => (r.risk_score : Rat))).sum / (results.length : Rat) }

/-- Stated from the spec's words for comparison: the unweighted arithmetic
mean of a list of scores. -/
def unweightedMean (scores : List Rat) : Rat :=
  scores.sum / (scores.length : Rat)

/-- The demo_scammer fixture of get_sample_accounts_for_demo
(src/data_generator.py lines 230-247), placed at created_date 0 so that
scoring at now = 10 gives the fixture's 10-day age. -/
def demo_scammer : AccountRecord :=
  { account_id := "demo_scammer"
    account_type := "Scammer"
    created_date := 0
    followers := 50
    following := 3000
    posts := 150
    posts_per_day := 15
    bio_length := 80
    has_profile_pic := true
    verified := false
    avg_likes_per_post := 2
    messages_sent_per_day := 80
    repetitive_content := 85
    suspicious_links := 60
    network_flags := 5 }

/-- The demo_coffee_shop fixture of get_sample_accounts_for_demo
(src/data_generator.py lines 192-209), placed at created_date 0 so that
scoring at now = 45 gives the fixture's 45-day age. -/
def demo_coffee_shop : AccountRecord :=
  { account_id := "demo_coffee_shop"
    account_type := "Business"
    created_date := 0
    followers := 250
    following := 150
    posts := 60
    posts_per_day := 133/100
    bio_length := 180
    has_profile_pic := true
    verified := false
    avg_likes_per_post := 45
    messages_sent_per_day := 8
    repetitive_content := 35
    suspicious_links := 5
    network_flags := 0 }

/-- An all-zero account used to probe the dependence of the score on the
evaluation time. -/
def probeAccount : AccountRecord :=
  { account_id := "probe"
    account_type := "Normal User"
    created_date := 0
    followers := 0
    following := 0
    posts := 0
    posts_per_day := 0
    bio_length := 0
    has_profile_pic := false
    verified := false
    avg_likes_per_post := 0
    messages_sent_per_day := 0
    repetitive_content := 0
    suspicious_links := 0
    network_flags := 0 }

example : (calculate_risk_score 10 demo_scammer).risk_score = 100 := by decide
example : (calculate_risk_score 45 demo_coffee_shop).risk_score = 11 := by
  norm_num [calculate_risk_score, rawScore, ageFactor, ratioFactor, frequencyFactor,
    repetitionFactor, messagingFactor, linksFactor, networkFactor, demo_coffee_shop]
example : (calculate_risk_score 29 probeAccount).risk_score = 15 := by decide
example : (calculate_risk_score 30 probeAccount).risk_score = 8 := by decide

/-! Helper lemmas about the factor functions. -/

lemma ageFactor_le (d : Int) : (ageFactor d).1 ≤ 15 := by
  unfold ageFactor; split_ifs <;> simp

lemma ratioFactor_le (f g : Nat) : (ratioFactor f g).1 ≤ 20 := by
  unfold ratioFactor; dsimp only; split_ifs <;> simp

lemma frequencyFactor_le (p : Rat) : (frequencyFactor p).1 ≤ 20 := by
  unfold frequencyFactor; split_ifs <;> simp

lemma repetitionFactor_le (p : Rat) : (repetitionFactor p).1 ≤ 15 := by
  unfold repetitionFactor; split_ifs <;> simp

lemma messagingFactor_le (p : Rat) : (messagingFactor p).1 ≤ 15 := by
  unfold messagingFactor; split_ifs <;> simp

lemma linksFactor_le (p : Rat) : (linksFactor p).1 ≤ 10 := by
  unfold linksFactor; split_ifs <;> simp

lemma networkFactor_le (n : Nat) : (networkFactor n).1 ≤ 5 := by
  unfold networkFactor; split_ifs <;> simp

lemma ageFactor_tag (d : Int) (e : Explanation) (h : (ageFactor d).2 = some e) :
    e.factorTag = 1 := by
  unfold ageFactor at h; split_ifs at h <;> simp_all [Explanation.factorTag] <;>
    subst h <;> rfl

lemma ratioFactor_tag (f g : Nat) (e : Explanation)
    (h : (ratioFactor f g).2 = some e) : e.factorTag = 2 := by
  unfold ratioFactor at h; dsimp only at h; split_ifs at h <;>
    simp_all [Explanation.factorTag] <;> subst h <;> rfl

lemma frequencyFactor_tag (p : Rat) (e : Explanation)
    (h : (frequencyFactor p).2 = some e) : e.factorTag = 3 := by
  unfold frequencyFactor at h; split_ifs at h <;> simp_all [Explanation.factorTag] <;>
    subst h <;> rfl

lemma repetitionFactor_tag (p : Rat) (e : Explanation)
    (h : (repetitionFactor p).2 = some e) : e.factorTag = 4 := by
  unfold repetitionFactor at h; split_ifs at h <;> simp_all [Explanation.factorTag] <;>
    subst h <;> rfl

lemma messagingFactor_tag (p : Rat) (e : Explanation)
    (h : (messagingFactor p).2 = some e) : e.factorTag = 5 := by
  unfold messagingFactor at h; split_ifs at h <;> simp_all [Explanation.factorTag] <;>
    subst h <;> rfl

lemma linksFactor_tag (p : Rat) (e : Explanation)
    (h : (linksFactor p).2 = some e) : e.factorTag = 6 := by
  unfold linksFactor at h; split_ifs at h <;> simp_all [Explanation.factorTag] <;>
    subst h <;> rfl

lemma networkFactor_tag (n : Nat) (e : Explanation)
    (h : (networkFactor n).2 = some e) : e.factorTag = 7 := by
  unfold networkFactor at h; split_ifs at h <;> simp_all [Explanation.factorTag] <;>
    subst h <;> rfl

lemma mem_negativeExplanations (now : Int) (a : AccountRecord) (e : Explanation)
    (h : e ∈ negativeExplanations now a) :
    (ageFactor (now - a.created_date)).2 = some e ∨
    (ratioFactor a.followers a.following).2 = some e ∨
    (frequencyFactor a.posts_per_day).2 = some e ∨
    (repetitionFactor a.repetitive_content).2 = some e ∨
    (messagingFactor a.messages_sent_per_day).2 = some e ∨
    (linksFactor a.suspicious_links).2 = some e ∨
    (networkFactor a.network_flags).2 = some e := by
  unfold negativeExplanations at h
  simp only [List.mem_filterMap, List.mem_cons, List.not_mem_nil, or_false, id] at h
  obtain ⟨x, hx, hxe⟩ := h
  rcases hx with rfl | rfl | rfl | rfl | rfl | rfl | rfl <;> simp [hxe]

lemma mem_negativeExplanations_tag (now : Int) (a : AccountRecord) (e : Explanation)
    (h : e ∈ negativeExplanations now a) : e.factorTag ≤ 7 := by
  rcases mem_negativeExplanations now a e h with h | h | h | h | h | h | h
  · exact (ageFactor_tag _ _ h).le.trans (by omega)
  · exact (ratioFactor_tag _ _ _ h).le.trans (by omega)
  · exact (frequencyFactor_tag _ _ h).le.trans (by omega)
  · exact (repetitionFactor_tag _ _ h).le.trans (by omega)
  · exact (messagingFactor_tag _ _ h).le.trans (by omega)
  · exact (linksFactor_tag _ _ h).le.trans (by omega)
  · exact (networkFactor_tag _ _ h).le.trans (by omega)

lemma mem_positiveSignals_tag (d : Int) (a : AccountRecord) (e : Explanation)
    (h : e ∈ positiveSignals d a) : e.factorTag = 8 := by
  unfold positiveSignals at h
  split_ifs at h <;> simp_all [Explanation.factorTag] <;>
    rcases h with rfl | rfl | rfl | rfl <;> rfl

lemma verifiedAccount_mem_positiveSignals (d : Int) (a : AccountRecord) :
    Explanation.verifiedAccount ∈ positiveSignals d a ↔ a.verified = true := by
  unfold positiveSignals; split_ifs <;> simp_all

lemma hasProfilePicture_mem_positiveSignals (d : Int) (a : AccountRecord) :
    Explanation.hasProfilePicture ∈ positiveSignals d a ↔ a.has_profile_pic = true := by
  unfold positiveSignals; split_ifs <;> simp_all

lemma completeProfileWithBio_mem_positiveSignals (d : Int) (a : AccountRecord) :
    Explanation.completeProfileWithBio ∈ positiveSignals d a ↔ a.bio_length > 50 := by
  unfold positiveSignals; split_ifs <;> simp_all

lemma establishedAccount_mem_positiveSignals (d : Int) (a : AccountRecord) :
    Explanation.establishedAccount ∈ positiveSignals d a ↔ d > 365 := by
  unfold positiveSignals; split_ifs <;> simp_all

lemma explanations_eq (now : Int) (a : AccountRecord) :
    (calculate_risk_score now a).explanations
      = negativeExplanations now a
        ++ (if (calculate_risk_score now a).risk_score < 40
            then positiveSignals (now - a.created_date) a else []) := rfl

lemma risk_score_eq (now : Int) (a : AccountRecord) :
    (calculate_risk_score now a).risk_score = min (rawScore now a) 100 := rfl

lemma mem_explanations_cases (now : Int) (a : AccountRecord) (e : Explanation)
    (h : e ∈ (calculate_risk_score now a).explanations) :
    e ∈ negativeExplanations now a ∨
    ((calculate_risk_score now a).risk_score < 40
      ∧ e ∈ positiveSignals (now - a.created_date) a) := by
  rw [explanations_eq] at h
  rcases List.mem_append.1 h with h1 | h2
  · exact Or.inl h1
  · split_ifs at h2 with hlt
    · exact Or.inr ⟨hlt, h2⟩
    · simp at h2

/-! The claim theorems. -/

/-- Claim C1 counterexample: calculate_risk_score is not a function of the
record's fields alone — the source reads datetime.now(), and the same
probe record scores 15 on day 29 of its life but 8 on day 30, so two calls
of the function on an identical record can disagree. -/
theorem score_depends_on_evaluation_time :
    calculate_risk_score 29 probeAccount ≠ calculate_risk_score 30 probeAccount := by
  decide

/-- Claim C1 (amended): for a fixed evaluation day, calculate_risk_score is
a deterministic pure function: two records with identical field values
scored on the same day yield identical output (same risk_score, risk_level,
recommendation and explanation list). -/
theorem score_deterministic_in_fields (now : Int) (a b : AccountRecord)
    (h1 : a.account_id = b.account_id) (h2 : a.account_type = b.account_type)
    (h3 : a.created_date = b.created_date) (h4 : a.followers = b.followers)
    (h5 : a.following = b.following) (h6 : a.posts = b.posts)
    (h7 : a.posts_per_day = b.posts_per_day) (h8 : a.bio_length = b.bio_length)
    (h9 : a.has_profile_pic = b.has_profile_pic) (h10 : a.verified = b.verified)
    (h11 : a.avg_likes_per_post = b.avg_likes_per_post)
    (h12 : a.messages_sent_per_day = b.messages_sent_per_day)
    (h13 : a.repetitive_content = b.repetitive_content)
    (h14 : a.suspicious_links = b.suspicious_links)
    (h15 : a.network_flags = b.network_flags) :
    calculate_risk_score now a = calculate_risk_score now b := by
  obtain ⟨a1, a2, a3, a4, a5, a6, a7, a8, a9, a10, a11, a12, a13, a14, a15⟩ := a
  obtain ⟨b1, b2, b3, b4, b5, b6, b7, b8, b9, b10, b11, b12, b13, b14, b15⟩ := b
  simp only at h1 h2 h3 h4 h5 h6 h7 h8 h9 h10 h11 h12 h13 h14 h15
  subst h1 h2 h3 h4 h5 h6 h7 h8 h9 h10 h11 h12 h13 h14 h15
  rfl

/-- Witness for score_deterministic_in_fields at a concrete record. -/
theorem score_deterministic_in_fields_witness :
    calculate_risk_score 0 probeAccount = calculate_risk_score 0 probeAccount :=
  score_deterministic_in_fields 0 probeAccount probeAccount rfl rfl rfl rfl rfl
    rfl rfl rfl rfl rfl rfl rfl rfl rfl rfl

/-- Claim C2: for every valid account, risk_score is the sum of the seven
factor contributions clamped at 100, and it lies in [0, 100]. -/
theorem risk_score_clamped_sum (now : Int) (a : AccountRecord)
    (hp : 0 ≤ a.posts_per_day) (hm : 0 ≤ a.messages_sent_per_day)
    (hl : 0 ≤ a.avg_likes_per_post)
    (hr0 : 0 ≤ a.repetitive_content) (hr1 : a.repetitive_content ≤ 100)
    (hs0 : 0 ≤ a.suspicious_links) (hs1 : a.suspicious_links ≤ 100) :
    (calculate_risk_score now a).risk_score = min (rawScore now a) 100 ∧
    0 ≤ (calculate_risk_score now a).risk_score ∧
    (calculate_risk_score now a).risk_score ≤ 100 :=
  ⟨rfl, Nat.zero_le _, by rw [risk_score_eq]; exact Nat.min_le_right _ _⟩

/-- Witness for risk_score_clamped_sum at the demo scammer fixture. -/
theorem risk_score_clamped_sum_witness :
    (calculate_risk_score 10 demo_scammer).risk_score = min (rawScore 10 demo_scammer) 100 ∧
    0 ≤ (calculate_risk_score 10 demo_scammer).risk_score ∧
    (calculate_risk_score 10 demo_scammer).risk_score ≤ 100 :=
  risk_score_clamped_sum 10 demo_scammer (by decide) (by decide) (by decide)
    (by decide) (by decide) (by decide) (by decide)

/-- Claim C3: the demo scammer fixture (age 10 days) scores exactly 100,
decomposed as 15 + 20 + 20 + 15 + 15 + 10 + 5 over the seven factors, and
is classified HIGH RISK. -/
theorem scammer_demo_exact_score :
    (calculate_risk_score 10 demo_scammer).risk_score = 100 ∧
    (ageFactor (10 - demo_scammer.created_date)).1 = 15 ∧
    (ratioFactor demo_scammer.followers demo_scammer.following).1 = 20 ∧
    (frequencyFactor demo_scammer.posts_per_day).1 = 20 ∧
    (repetitionFactor demo_scammer.repetitive_content).1 = 15 ∧
    (messagingFactor demo_scammer.messages_sent_per_day).1 = 15 ∧
    (linksFactor demo_scammer.suspicious_links).1 = 10 ∧
    (networkFactor demo_scammer.network_flags).1 = 5 ∧
    (calculate_risk_score 10 demo_scammer).risk_level = "HIGH RISK" := by
  decide

/-- Claim C7: strict comparisons put exact boundary values into the next
lower severity bucket: age exactly 30 days gets the 8-point bucket and
posts_per_day exactly 10 gets the 12-point bucket. -/
theorem strict_threshold_boundaries :
    ageFactor 30 = (8, some Explanation.relativelyNewAccount) ∧
    frequencyFactor 10 = (12, some (Explanation.highPostingFrequency 10)) := by
  decide

/-- Claim C9: avg_likes_per_post is never consulted: changing it and nothing
else leaves the entire output of calculate_risk_score unchanged. -/
theorem avg_likes_not_consulted (now : Int) (a : AccountRecord) (v : Rat) :
    calculate_risk_score now { a with avg_likes_per_post := v }
      = calculate_risk_score now a := by
  cases a; rfl

/-- Claim C5: the risk band and recommendation are a function of the final
score alone: >= 70 is HIGH RISK, 40..69 is MODERATE RISK, < 40 is LOW RISK,
each with its fixed recommendation string. -/
theorem band_from_score (now : Int) (a : AccountRecord) :
    ((calculate_risk_score now a).risk_score ≥ 70 →
      (calculate_risk_score now a).risk_level = "HIGH RISK" ∧
      (calculate_risk_score now a).recommendation
        = "Strong indicators of malicious activity. Recommend immediate review and possible restriction.") ∧
    (40 ≤ (calculate_risk_score now a).risk_score ∧
        (calculate_risk_score now a).risk_score < 70 →
      (calculate_risk_score now a).risk_level = "MODERATE RISK" ∧
      (calculate_risk_score now a).recommendation
        = "Unusual patterns detected. May be legitimate but warrants human review.") ∧
    ((calculate_risk_score now a).risk_score < 40 →
      (calculate_risk_score now a).risk_level = "LOW RISK" ∧
      (calculate_risk_score now a).recommendation
        = "Activity appears normal. Account likely legitimate.") := by
  unfold calculate_risk_score
  dsimp only
  split_ifs with h1 h2 <;>
    refine ⟨fun hc => ?_, fun hc => ?_, fun hc => ?_⟩ <;>
    first
      | exact ⟨rfl, rfl⟩
      | omega

/-- Witness for band_from_score at the demo scammer fixture. -/
theorem band_from_score_witness :
    (calculate_risk_score 10 demo_scammer).risk_level = "HIGH RISK" ∧
    (calculate_risk_score 10 demo_scammer).recommendation
      = "Strong indicators of malicious activity. Recommend immediate review and possible restriction." :=
  (band_from_score 10 demo_scammer).1 (by decide)

/-- Claim C10: the per-factor maxima sum to exactly 100, so the unclamped
sum never exceeds 100, the final clamp never changes the value, and 100 is
attained only when every factor takes its maximum branch. -/
theorem raw_sum_bound (now : Int) (a : AccountRecord) :
    rawScore now a ≤ 100 ∧
    (calculate_risk_score now a).risk_score = rawScore now a ∧
    (rawScore now a = 100 →
      (ageFactor (now - a.created_date)).1 = 15 ∧
      (ratioFactor a.followers a.following).1 = 20 ∧
      (frequencyFactor a.posts_per_day).1 = 20 ∧
      (repetitionFactor a.repetitive_content).1 = 15 ∧
      (messagingFactor a.messages_sent_per_day).1 = 15 ∧
      (linksFactor a.suspicious_links).1 = 10 ∧
      (networkFactor a.network_flags).1 = 5) := by
  have b1 := ageFactor_le (now - a.created_date)
  have b2 := ratioFactor_le a.followers a.following
  have b3 := frequencyFactor_le a.posts_per_day
  have b4 := repetitionFactor_le a.repetitive_content
  have b5 := messagingFactor_le a.messages_sent_per_day
  have b6 := linksFactor_le a.suspicious_links
  have b7 := networkFactor_le a.network_flags
  have hraw : rawScore now a ≤ 100 := by unfold rawScore; omega
  refine ⟨hraw, ?_, fun h100 => ?_⟩
  · rw [risk_score_eq]; omega
  · unfold rawScore at h100
    exact ⟨by omega, by omega, by omega, by omega, by omega, by omega, by omega⟩

/-- Witness for raw_sum_bound at the demo scammer fixture, where the raw
sum is exactly 100. -/
theorem raw_sum_bound_witness :
    (ageFactor (10 - demo_scammer.created_date)).1 = 15 ∧
    (ratioFactor demo_scammer.followers demo_scammer.following).1 = 20 ∧
    (frequencyFactor demo_scammer.posts_per_day).1 = 20 ∧
    (repetitionFactor demo_scammer.repetitive_content).1 = 15 ∧
    (messagingFactor demo_scammer.messages_sent_per_day).1 = 15 ∧
    (linksFactor demo_scammer.suspicious_links).1 = 10 ∧
    (networkFactor demo_scammer.network_flags).1 = 5 :=
  (raw_sum_bound 10 demo_scammer).2.2 (by decide)

/-- Claim C6: following == 0 short-circuits the ratio factor: no division is
performed (the guard skips the whole factor), it contributes 0 points, and
no ratio-factor explanation appears in the output, for any followers. -/
theorem following_zero_short_circuit (now : Int) (a : AccountRecord)
    (h : a.following = 0) :
    ratioFactor a.followers a.following = (0, none) ∧
    Explanation.botFollowPattern ∉ (calculate_risk_score now a).explanations ∧
    Explanation.lowFollowRate ∉ (calculate_risk_score now a).explanations ∧
    Explanation.highInfluence ∉ (calculate_risk_score now a).explanations := by
  have hr : ratioFactor a.followers a.following = (0, none) := by
    rw [h]; unfold ratioFactor; simp
  have key : ∀ e : Explanation, e.factorTag = 2 →
      e ∉ (calculate_risk_score now a).explanations := by
    intro e htag hmem
    rcases mem_explanations_cases now a e hmem with hneg | ⟨_, hpos⟩
    · rcases mem_negativeExplanations now a e hneg with h1 | h1 | h1 | h1 | h1 | h1 | h1
      · exact absurd (ageFactor_tag _ _ h1) (by omega)
      · rw [hr] at h1; exact Option.noConfusion h1
      · exact absurd (frequencyFactor_tag _ _ h1) (by omega)
      · exact absurd (repetitionFactor_tag _ _ h1) (by omega)
      · exact absurd (messagingFactor_tag _ _ h1) (by omega)
      · exact absurd (linksFactor_tag _ _ h1) (by omega)
      · exact absurd (networkFactor_tag _ _ h1) (by omega)
    · exact absurd (mem_positiveSignals_tag _ _ _ hpos) (by omega)
  exact ⟨hr, key _ rfl, key _ rfl, key _ rfl⟩

/-- Witness for following_zero_short_circuit at the probe record, whose
following count is zero. -/
theorem following_zero_short_circuit_witness :
    ratioFactor probeAccount.followers probeAccount.following = (0, none) ∧
    Explanation.botFollowPattern ∉ (calculate_risk_score 0 probeAccount).explanations ∧
    Explanation.lowFollowRate ∉ (calculate_risk_score 0 probeAccount).explanations ∧
    Explanation.highInfluence ∉ (calculate_risk_score 0 probeAccount).explanations :=
  following_zero_short_circuit 0 probeAccount rfl

/-- A low-risk, long-established account used as the concrete witness for
the positive-signal augmentation. -/
def veteranAccount : AccountRecord :=
  { account_id := "veteran"
    account_type := "Normal User"
    created_date := 0
    followers := 10
    following := 0
    posts := 0
    posts_per_day := 0
    bio_length := 100
    has_profile_pic := true
    verified := true
    avg_likes_per_post := 0
    messages_sent_per_day := 0
    repetitive_content := 0
    suspicious_links := 0
    network_flags := 0 }

/-- Claim C4: the positive-signal explanations are exactly the gated list
appended after all negative-factor explanations, each appearing iff
risk_score < 40 and its own gate holds, in the fixed source order, and the
gating fields never change the score. -/
theorem positive_signal_augmentation (now : Int) (a : AccountRecord) :
    (calculate_risk_score now a).explanations
      = negativeExplanations now a
        ++ (if (calculate_risk_score now a).risk_score < 40
            then positiveSignals (now - a.created_date) a else []) ∧
    (Explanation.verifiedAccount ∈ (calculate_risk_score now a).explanations
      ↔ (calculate_risk_score now a).risk_score < 40 ∧ a.verified = true) ∧
    (Explanation.hasProfilePicture ∈ (calculate_risk_score now a).explanations
      ↔ (calculate_risk_score now a).risk_score < 40 ∧ a.has_profile_pic = true) ∧
    (Explanation.completeProfileWithBio ∈ (calculate_risk_score now a).explanations
      ↔ (calculate_risk_score now a).risk_score < 40 ∧ a.bio_length > 50) ∧
    (Explanation.establishedAccount ∈ (calculate_risk_score now a).explanations
      ↔ (calculate_risk_score now a).risk_score < 40 ∧ now - a.created_date > 365) ∧
    (∀ v p b, (calculate_risk_score now
        { a with verified := v, has_profile_pic := p, bio_length := b }).risk_score
      = (calculate_risk_score now a).risk_score) := by
  have mem_iff : ∀ e : Explanation, e.factorTag = 8 →
      (e ∈ (calculate_risk_score now a).explanations ↔
        (calculate_risk_score now a).risk_score < 40
          ∧ e ∈ positiveSignals (now - a.created_date) a) := by
    intro e htag
    constructor
    · intro hmem
      rcases mem_explanations_cases now a e hmem with hneg | hp
      · exact absurd (mem_negativeExplanations_tag now a e hneg) (by omega)
      · exact hp
    · rintro ⟨hs, hp⟩
      rw [explanations_eq]
      refine List.mem_append.2 (Or.inr ?_)
      rw [if_pos hs]; exact hp
  refine ⟨explanations_eq now a, ?_, ?_, ?_, ?_, ?_⟩
  · exact (mem_iff Explanation.verifiedAccount rfl).trans
      (and_congr_right fun _ => verifiedAccount_mem_positiveSignals _ _)
  · exact (mem_iff Explanation.hasProfilePicture rfl).trans
      (and_congr_right fun _ => hasProfilePicture_mem_positiveSignals _ _)
  · exact (mem_iff Explanation.completeProfileWithBio rfl).trans
      (and_congr_right fun _ => completeProfileWithBio_mem_positiveSignals _ _)
  · exact (mem_iff Explanation.establishedAccount rfl).trans
      (and_congr_right fun _ => establishedAccount_mem_positiveSignals _ _)
  · intro v p b; cases a; rfl

/-- Witness for positive_signal_augmentation at a concrete low-risk
account: the verified positive signal does appear. -/
theorem positive_signal_augmentation_witness :
    Explanation.verifiedAccount ∈ (calculate_risk_score 400 veteranAccount).explanations :=
  ((positive_signal_augmentation 400 veteranAccount).2.1).mpr ⟨by decide, rfl⟩

lemma risk_level_trichotomy (now : Int) (a : AccountRecord) :
    (calculate_risk_score now a).risk_level = "HIGH RISK" ∨
    (calculate_risk_score now a).risk_level = "MODERATE RISK" ∨
    (calculate_risk_score now a).risk_level = "LOW RISK" := by
  unfold calculate_risk_score
  dsimp only
  split_ifs <;> simp

lemma countP_three_bands (l : List RiskAssessment)
    (hl : ∀ r ∈ l, r.risk_level = "HIGH RISK" ∨ r.risk_level = "MODERATE RISK"
      ∨ r.risk_level = "LOW RISK") :
    l.countP (fun r => r.risk_level = "HIGH RISK")
      + l.countP (fun r => r.risk_level = "MODERATE RISK")
      + l.countP (fun r => r.risk_level = "LOW RISK") = l.length := by
  induction l with
  | nil => simp
  | cons x xs ih =>
    have hx := hl x (List.mem_cons_self x xs)
    have hxs := fun r hr => hl r (List.mem_cons_of_mem x hr)
    have ihh := ih hxs
    rcases hx with h | h | h <;>
      simp [List.countP_cons, h] <;> omega

/-- Claim C8: batch analysis is an order-preserving one-to-one map, the
per-band counts sum to the total record count, and avg_score is the
unweighted arithmetic mean of the individual scores. -/
theorem batch_analysis_spec (now : Int) (accounts : List AccountRecord) :
    (analyze_batch_accounts now accounts).length = accounts.length ∧
    (∀ i : Nat, (analyze_batch_accounts now accounts)[i]?
      = (accounts[i]?).map (calculate_risk_score now)) ∧
    (get_risk_distribution (analyze_batch_accounts now accounts)).high_risk
      + (get_risk_distribution (analyze_batch_accounts now accounts)).moderate_risk
      + (get_risk_distribution (analyze_batch_accounts now accounts)).low_risk
      = (get_risk_distribution (analyze_batch_accounts now accounts)).total ∧
    (get_risk_distribution (analyze_batch_accounts now accounts)).total
      = accounts.length ∧
    (get_risk_distribution (analyze_batch_accounts now accounts)).avg_score
      = unweightedMean ((analyze_batch_accounts now accounts).map
          (fun r => (r.risk_score : Rat))) := by
  have hall : ∀ r ∈ analyze_batch_accounts now accounts,
      r.risk_level = "HIGH RISK" ∨ r.risk_level = "MODERATE RISK"
        ∨ r.risk_level = "LOW RISK" := by
    intro r hr
    obtain ⟨x, _, rfl⟩ := List.mem_map.1 hr
    exact risk_level_trichotomy now x
  refine ⟨List.length_map _ _, fun i => ?_, countP_three_bands _ hall,
    List.length_map _ _, ?_⟩
  · simp [analyze_batch_accounts, List.getElem?_map]
  · simp [get_risk_distribution, unweightedMean, List.length_map]
